import Mathlib

/-!
Verification of the lap-doer car-model package.

The Python sources under src/lap_doer/car_models are embedded shallowly:
chassis, geometry, aero and the car-level slip-angle algebra use exact
rational arithmetic (the Python code only adds, subtracts, multiplies and
divides floats there), while the tyre model uses the reals because its
example coupling function takes a square root.  Python dict results are
embedded as structures, classes as structures whose constructor stores the
parameters exactly as the corresponding init method does.
-/

/-- Result of a load-transfer query: the Python methods return a dict with
the keys front_transfer_N and rear_transfer_N. -/
structure LoadTransfer where
  front_transfer_N : ℚ
  rear_transfer_N : ℚ

/-- Embedding of chassis_model.GenericChassis.  Its init method stores the
six parameters unchanged (it performs no validation), and each property
returns the stored value. -/
structure GenericChassis where
  wheelbase : ℚ
  front_track_width : ℚ
  back_track_width : ℚ
  cog_height : ℚ
  front_weight_dist : ℚ
  mass : ℚ

/-- GenericChassis.static_lateral_load_transfer: front and rear totals are
computed with the front and back track widths respectively, then scaled by
the axle weight-distribution fraction. -/
def GenericChassis.static_lateral_load_transfer (c : GenericChassis)
    (total_mass lateral_accel : ℚ) : LoadTransfer :=
  let front_load_transfer_total :=
    total_mass * lateral_accel * c.cog_height / c.front_track_width
  let back_load_transfer_total :=
    total_mass * lateral_accel * c.cog_height / c.back_track_width
  ⟨front_load_transfer_total * c.front_weight_dist,
    back_load_transfer_total * (1 - c.front_weight_dist)⟩

/-- GenericChassis.static_longitudinal_load_transfer: the front transfer is
the negated load transfer, the rear transfer the positive one. -/
def GenericChassis.static_longitudinal_load_transfer (c : GenericChassis)
    (total_mass longitudinal_accel : ℚ) : LoadTransfer :=
  let load_transfer := total_mass * longitudinal_accel * c.cog_height / c.wheelbase
  ⟨-load_transfer, load_transfer⟩

/-- Embedding of car_model.GenericCarGeometry (the older geometry class with a
single track width).  Its init method stores the four parameters unchanged. -/
structure GenericCarGeometry where
  wheelbase : ℚ
  track_width : ℚ
  cog_height : ℚ
  front_weight_dist : ℚ

/-- GenericCarGeometry.static_lateral_load_transfer: one total computed with
the single track width, scaled per axle by the weight distribution.  (The
local variables g and total_weight in the Python body are unused there and
are omitted.) -/
def GenericCarGeometry.static_lateral_load_transfer (geo : GenericCarGeometry)
    (total_mass lateral_accel : ℚ) : LoadTransfer :=
  let load_transfer_total :=
    total_mass * lateral_accel * geo.cog_height / geo.track_width
  ⟨load_transfer_total * geo.front_weight_dist,
    load_transfer_total * (1 - geo.front_weight_dist)⟩

/-- GenericCarGeometry.static_longitudinal_load_transfer: the Python body
assigns front_transfer = load_transfer and rear_transfer = -load_transfer
(the opposite signs of GenericChassis). -/
def GenericCarGeometry.static_longitudinal_load_transfer (geo : GenericCarGeometry)
    (total_mass longitudinal_accel : ℚ) : LoadTransfer :=
  let load_transfer := total_mass * longitudinal_accel * geo.cog_height / geo.wheelbase
  ⟨load_transfer, -load_transfer⟩

/-- Embedding of tyre_model.GenericTyreModel: three user-supplied force
functions stored at construction. -/
structure GenericTyreModel where
  lateral_force_func : ℝ → ℝ → ℝ
  longitudinal_force_func : ℝ → ℝ → ℝ
  coupling_func : ℝ → ℝ → ℝ

/-- GenericTyreModel.lateral_force delegates to the stored function. -/
def GenericTyreModel.lateral_force (t : GenericTyreModel)
    (slip_angle normal_load : ℝ) : ℝ :=
  t.lateral_force_func slip_angle normal_load

/-- GenericTyreModel.longitudinal_force delegates to the stored function. -/
def GenericTyreModel.longitudinal_force (t : GenericTyreModel)
    ( slip_ratio normal_load : ℝ) : ℝ :=
  t.longitudinal_force_func slip_ratio normal_load

/-- GenericTyreModel.force_coupling delegates to the stored function. -/
def GenericTyreModel.force_coupling (t : GenericTyreModel)
    (given_force normal_load : ℝ) : ℝ :=
  t.coupling_func given_force normal_load

/-- The linear lateral force function of tyre_example. -/
def lat_func (slip_angle normal_load : ℝ) : ℝ :=
  10 * normal_load * slip_angle

/-- The linear longitudinal force function of tyre_example. -/
def long_func ( slip_ratio normal_load : ℝ) : ℝ :=
  12 * normal_load * slip_ratio

/-- The friction-ellipse coupling function of tyre_example: when the applied
force is within the normal load it returns max(0, sqrt(load^2 - force^2)),
otherwise 0. -/
noncomputable def ellipse_coupling (given_force normal_load : ℝ) : ℝ :=
  if |given_force| ≤ normal_load then
    max 0 (Real.sqrt (normal_load ^ 2 - given_force ^ 2))
  else 0

/-- The tyre model constructed in tyre_example. -/
noncomputable def exampleTyre : GenericTyreModel :=
  ⟨lat_func, long_func, ellipse_coupling⟩

/-- Embedding of aero_model.GenericAeroModel: the stored functions are called
with two arguments, speed and air density. -/
structure GenericAeroModel where
  downforce_func : ℚ → ℚ → ℚ
  drag_func : ℚ → ℚ → ℚ

/-- GenericAeroModel.downforce with an explicit rho argument. -/
def GenericAeroModel.downforce (a : GenericAeroModel) (speed rho : ℚ) : ℚ :=
  a.downforce_func speed rho

/-- GenericAeroModel.downforce called without rho, which in the Python
signature defaults to 1.25. -/
def GenericAeroModel.downforce_default (a : GenericAeroModel) (speed : ℚ) : ℚ :=
  a.downforce speed 1.25

/-- GenericAeroModel.drag with an explicit rho argument. -/
def GenericAeroModel.drag (a : GenericAeroModel) (speed rho : ℚ) : ℚ :=
  a.drag_func speed rho

/-- GenericAeroModel.drag called without rho, which in the Python signature
defaults to 1.25. -/
def GenericAeroModel.drag_default (a : GenericAeroModel) (speed : ℚ) : ℚ :=
  a.drag speed 1.25

/-- The downforce function of aero_example, with its default cla 4.3 inlined. -/
def negative_lift_func (velocity rho : ℚ) : ℚ :=
  0.5 * rho * 4.3 * velocity ^ 2

/-- The drag function of aero_example, with its default cda 1.7 inlined. -/
def drag_func (velocity rho : ℚ) : ℚ :=
  0.5 * rho * 1.7 * velocity ^ 2

/-- The aero model constructed in aero_example. -/
def exampleAero : GenericAeroModel :=
  ⟨negative_lift_func, drag_func⟩

/-- Embedding of car_model.CarModel: mass plus the three sub-models, stored
unchanged at construction. -/
structure CarModel where
  mass : ℚ
  tyre_model : GenericTyreModel
  aero_model : GenericAeroModel
  geometry : GenericCarGeometry

/-- CarModel.required_lateral_force: mass * speed^2 * curvature. -/
def CarModel.required_lateral_force (c : CarModel) (speed curvature : ℚ) : ℚ :=
  c.mass * speed ^ 2 * curvature

/-- CarModel.front_body_slip_angle: body slip plus the front axle arm times
curvature, where the arm is wheelbase * front_weight_dist. -/
def CarModel.front_body_slip_angle (c : CarModel) (body_slip curvature : ℚ) : ℚ :=
  let a := c.geometry.wheelbase * c.geometry.front_weight_dist
  body_slip + a * curvature

/-- CarModel.back_body_slip_angle: body slip minus the rear axle arm times
curvature, where the arm is wheelbase * (1 - front_weight_dist). -/
def CarModel.back_body_slip_angle (c : CarModel) (body_slip curvature : ℚ) : ℚ :=
  let b := c.geometry.wheelbase * (1 - c.geometry.front_weight_dist)
  body_slip - b * curvature

/-- CarModel.front_slip_angle: front body slip minus the steering angle. -/
def CarModel.front_slip_angle (c : CarModel) (front_body_slip steering_angle : ℚ) : ℚ :=
  front_body_slip - steering_angle

/-- CarModel.back_slip_angle: the identity on the rear body slip. -/
def CarModel.back_slip_angle (c : CarModel) (back_body_slip : ℚ) : ℚ :=
  back_body_slip

/-- CarModel.steering_angle: front_slip + curvature * wheelbase - back_slip. -/
def CarModel.steering_angle (c : CarModel) (front_slip curvature back_slip : ℚ) : ℚ :=
  front_slip + curvature * c.geometry.wheelbase - back_slip

/-- Outcome of the max-speed solver described in the spec: the unbounded
top-speed sentinel, a solved cornering speed, or a convergence failure. -/
inductive CorneringOutcome where
  | unbounded (top_speed : ℚ)
  | solved (speed : ℚ)
  | failed

/-- Modelled from the spec: the body of CarModel.max_speed_over_curvature in
car_model.py is an ellipsis placeholder, so the solver implementation is
missing from the source.  The spec requires that for curvature 0 the solver
short-circuits and returns the aerodynamic/engine-limited top-speed
placeholder (the unbounded sentinel) without attempting root-finding, and
that for nonzero curvature it runs an iterative root-finder on the residual
between available and required lateral force.  The root-finder is kept as an
explicit parameter, so that never invoking it at curvature 0 is provable as
independence of the result from it. -/
def CarModel.max_speed_over_curvature (c : CarModel) (top_speed : ℚ)
    (rootFind : CarModel → ℚ → CorneringOutcome) (curvature : ℚ) : CorneringOutcome :=
  if curvature = 0 then CorneringOutcome.unbounded top_speed else rootFind c curvature

/-- A concrete car assembled from the example sub-models, used as a test
fixture: mass 1, the example tyre and aero models, and a geometry with
wheelbase 2, track width 1, cog height 2/5 and front weight 1/2. -/
noncomputable def example_car : CarModel :=
  ⟨1, exampleTyre, exampleAero, ⟨2, 1, 2/5, 1/2⟩⟩

/-- Claim C1: for curvature 0, max_speed_over_curvature returns the
top-speed/unbounded sentinel, never invokes the root-finding iteration (the
result is independent of the root-finder), and does not return an error. -/
theorem max_speed_over_curvature_zero (c : CarModel) (top : ℚ)
    (rf rg : CarModel → ℚ → CorneringOutcome) :
    c.max_speed_over_curvature top rf 0 = CorneringOutcome.unbounded top
    ∧ c.max_speed_over_curvature top rf 0 = c.max_speed_over_curvature top rg 0
    ∧ c.max_speed_over_curvature top rf 0 ≠ CorneringOutcome.failed := by
  refine ⟨?_, ?_, ?_⟩ <;> simp [CarModel.max_speed_over_curvature]

/-- Claim C2: the example tyre's force_coupling satisfies the friction-ellipse
relation: for applied force within the normal load it equals
sqrt(max(0, load^2 - force^2)), beyond the load it is exactly 0, it is never
negative, and for positive load the boundary values are coupling 0 L = L and
coupling L L = 0. -/
theorem force_coupling_ellipse_spec (F L : ℝ) :
    (|F| ≤ L → exampleTyre.force_coupling F L = Real.sqrt (max 0 (L ^ 2 - F ^ 2)))
    ∧ (L < |F| → exampleTyre.force_coupling F L = 0)
    ∧ 0 ≤ exampleTyre.force_coupling F L
    ∧ (0 < L → exampleTyre.force_coupling 0 L = L ∧ exampleTyre.force_coupling L L = 0) := by
  have hdel : ∀ F0 L0 : ℝ, exampleTyre.force_coupling F0 L0 = ellipse_coupling F0 L0 :=
    fun _ _ => rfl
  refine ⟨?_, ?_, ?_, ?_⟩
  · intro h
    rw [hdel]
    unfold ellipse_coupling
    rw [if_pos h]
    have hF2 : F ^ 2 ≤ L ^ 2 := by
      have habs : 0 ≤ |F| := abs_nonneg F
      nlinarith [sq_abs F]
    have hnn : 0 ≤ L ^ 2 - F ^ 2 := by linarith
    rw [max_eq_right (Real.sqrt_nonneg _), max_eq_right hnn]
  · intro h
    rw [hdel]
    unfold ellipse_coupling
    rw [if_neg (not_le.mpr h)]
  · rw [hdel]
    unfold ellipse_coupling
    split
    · exact le_max_left 0 _
    · exact le_refl 0
  · intro hL
    constructor
    · rw [hdel]
      unfold ellipse_coupling
      rw [if_pos (by rw [abs_zero]; exact hL.le)]
      have hz : L ^ 2 - 0 ^ 2 = L ^ 2 := by ring
      rw [hz, Real.sqrt_sq hL.le, max_eq_right hL.le]
    · rw [hdel]
      unfold ellipse_coupling
      rw [if_pos (by rw [abs_of_pos hL])]
      have hz : L ^ 2 - L ^ 2 = 0 := by ring
      rw [hz, Real.sqrt_zero, max_self]

/-- Witness for claim C2 at F = 0, L = 1: the hypotheses hold and the
boundary values and in-range formula evaluate as stated. -/
theorem force_coupling_ellipse_spec_witness :
    (0:ℝ) < 1 ∧ |(0:ℝ)| ≤ 1
    ∧ exampleTyre.force_coupling 0 1 = 1
    ∧ exampleTyre.force_coupling 1 1 = 0
    ∧ exampleTyre.force_coupling 0 1 = Real.sqrt (max 0 ((1:ℝ) ^ 2 - 0 ^ 2)) :=
  ⟨by norm_num, by norm_num,
    ((force_coupling_ellipse_spec 0 1).2.2.2 (by norm_num)).1,
    ((force_coupling_ellipse_spec 0 1).2.2.2 (by norm_num)).2,
    (force_coupling_ellipse_spec 0 1).1 (by norm_num)⟩

/-- Claim C3 (code bug): at total_mass 1200 and longitudinal_accel 3, with
cog_height 0.4 and wheelbase 2.5, GenericCarGeometry returns a positive
front transfer of +576 N while GenericChassis returns -576 N: the older
class has the sign convention reversed, contradicting its own inline comment
that forward acceleration makes the front lose load. -/
theorem genericCarGeometry_longitudinal_sign_bug :
    ((GenericCarGeometry.mk 2.5 1.2 0.4 0.3).static_longitudinal_load_transfer
        1200 3).front_transfer_N = 576
    ∧ ((GenericCarGeometry.mk 2.5 1.2 0.4 0.3).static_longitudinal_load_transfer
        1200 3).rear_transfer_N = -576
    ∧ ((GenericChassis.mk 2.5 1.2 1.2 0.4 0.3 1200).static_longitudinal_load_transfer
        1200 3).front_transfer_N = -576
    ∧ ((GenericChassis.mk 2.5 1.2 1.2 0.4 0.3 1200).static_longitudinal_load_transfer
        1200 3).rear_transfer_N = 576 := by
  refine ⟨?_, ?_, ?_, ?_⟩ <;>
    norm_num [GenericCarGeometry.static_longitudinal_load_transfer,
      GenericChassis.static_longitudinal_load_transfer]

/-- Claim C4: GenericChassis computes the lateral load transfer of each axle
independently with that axle's own track width, scaled by the axle's share
of the weight distribution. -/
theorem genericChassis_lateral_transfer_formula (c : GenericChassis)
    (total_mass lateral_accel : ℚ) :
    (c.static_lateral_load_transfer total_mass lateral_accel).front_transfer_N
      = total_mass * lateral_accel * c.cog_height / c.front_track_width
          * c.front_weight_dist
    ∧ (c.static_lateral_load_transfer total_mass lateral_accel).rear_transfer_N
      = total_mass * lateral_accel * c.cog_height / c.back_track_width
          * (1 - c.front_weight_dist) :=
  ⟨rfl, rfl⟩

/-- Counterexample to claim C5: on the fixture car (wheelbase 2), with body
slip 0, curvature 1 and steering angle 0, the claimed round trip evaluates
to 4, not to the steering angle 0. -/
theorem steering_angle_roundtrip_cex :
    example_car.steering_angle
        (example_car.front_slip_angle (example_car.front_body_slip_angle 0 1) 0) 1
        (example_car.back_slip_angle (example_car.back_body_slip_angle 0 1)) = 4
    ∧ example_car.steering_angle
        (example_car.front_slip_angle (example_car.front_body_slip_angle 0 1) 0) 1
        (example_car.back_slip_angle (example_car.back_body_slip_angle 0 1)) ≠ 0 := by
  refine ⟨?_, ?_⟩ <;>
    norm_num [example_car, CarModel.steering_angle, CarModel.front_slip_angle,
      CarModel.front_body_slip_angle, CarModel.back_slip_angle,
      CarModel.back_body_slip_angle]

/-- Claim C5 as amended: the composition of steering_angle with the
slip-angle functions returns 2 * wheelbase * curvature - steering_angle, so
it recovers the steering input only when that input equals
wheelbase * curvature; steering_angle is not an inverse of the slip-angle
algebra. -/
theorem steering_angle_roundtrip_formula (c : CarModel) (beta curvature delta : ℚ) :
    c.steering_angle (c.front_slip_angle (c.front_body_slip_angle beta curvature) delta)
        curvature (c.back_slip_angle (c.back_body_slip_angle beta curvature))
      = 2 * c.geometry.wheelbase * curvature - delta := by
  simp only [CarModel.steering_angle, CarModel.front_slip_angle,
    CarModel.front_body_slip_angle, CarModel.back_slip_angle,
    CarModel.back_body_slip_angle]
  ring

/-- Claim C6: required_lateral_force is mass * speed^2 * curvature, and in
particular it is 0 at curvature 0 for every speed. -/
theorem required_lateral_force_formula (c : CarModel) (speed curvature : ℚ) :
    c.required_lateral_force speed curvature = c.mass * speed ^ 2 * curvature
    ∧ c.required_lateral_force speed 0 = 0 := by
  constructor
  · rfl
  · simp [CarModel.required_lateral_force]

/-- Claim C7: for positive mass and fixed positive curvature,
required_lateral_force is strictly increasing in (nonnegative) speed. -/
theorem required_lateral_force_strict_mono (c : CarModel) (v1 v2 curvature : ℚ)
    (hm : 0 < c.mass) (hk : 0 < curvature) (h1 : 0 ≤ v1) (h12 : v1 < v2) :
    c.required_lateral_force v1 curvature < c.required_lateral_force v2 curvature := by
  have hsq : v1 ^ 2 < v2 ^ 2 := by nlinarith
  have hmul : c.mass * v1 ^ 2 < c.mass * v2 ^ 2 := mul_lt_mul_of_pos_left hsq hm
  simpa [CarModel.required_lateral_force] using mul_lt_mul_of_pos_right hmul hk

/-- Witness for claim C7 on the fixture car at speeds 2 < 3 and curvature 1. -/
theorem required_lateral_force_strict_mono_witness :
    0 < example_car.mass ∧ (0:ℚ) < 1 ∧ (0:ℚ) ≤ 2 ∧ (2:ℚ) < 3
    ∧ example_car.required_lateral_force 2 1 < example_car.required_lateral_force 3 1 :=
  ⟨by norm_num [example_car], by norm_num, by norm_num, by norm_num,
    required_lateral_force_strict_mono example_car 2 3 1
      (by norm_num [example_car]) (by norm_num) (by norm_num) (by norm_num)⟩

/-- Counterexample to claim C8: constructing GenericChassis with a negative
wheelbase, a negative track width, a negative mass and a weight distribution
of 2 succeeds and stores those values verbatim, and likewise for
GenericCarGeometry: there is no ValidationError at construction time. -/
theorem chassis_construction_no_validation_cex :
    (GenericChassis.mk (-1) (-2) 0 (-3) 2 (-5)).wheelbase = -1
    ∧ (GenericChassis.mk (-1) (-2) 0 (-3) 2 (-5)).front_track_width = -2
    ∧ (GenericChassis.mk (-1) (-2) 0 (-3) 2 (-5)).mass = -5
    ∧ (GenericChassis.mk (-1) (-2) 0 (-3) 2 (-5)).front_weight_dist = 2
    ∧ (GenericCarGeometry.mk (-1) 0 1 2).wheelbase = -1 :=
  ⟨rfl, rfl, rfl, rfl, rfl⟩

/-- Claim C8 as amended: construction performs no validation at all — every
parameter combination, including non-positive wheelbase, track widths and
mass and a weight distribution outside (0, 1), is accepted and stored
unchanged (never clamped, never rejected). -/
theorem chassis_construction_stores_params (wb ftw btw cog fwd m wg tg cg fg : ℚ) :
    (GenericChassis.mk wb ftw btw cog fwd m).wheelbase = wb
    ∧ (GenericChassis.mk wb ftw btw cog fwd m).front_track_width = ftw
    ∧ (GenericChassis.mk wb ftw btw cog fwd m).back_track_width = btw
    ∧ (GenericChassis.mk wb ftw btw cog fwd m).cog_height = cog
    ∧ (GenericChassis.mk wb ftw btw cog fwd m).front_weight_dist = fwd
    ∧ (GenericChassis.mk wb ftw btw cog fwd m).mass = m
    ∧ (GenericCarGeometry.mk wg tg cg fg).wheelbase = wg
    ∧ (GenericCarGeometry.mk wg tg cg fg).track_width = tg
    ∧ (GenericCarGeometry.mk wg tg cg fg).cog_height = cg
    ∧ (GenericCarGeometry.mk wg tg cg fg).front_weight_dist = fg :=
  ⟨rfl, rfl, rfl, rfl, rfl, rfl, rfl, rfl, rfl, rfl⟩

/-- Counterexample to claim C9: the example tyre's lateral_force at slip
angle 1 and the negative normal load -100 is -1000, not 0: the linear
example force functions have no lifted-wheel guard. -/
theorem tyre_forces_negative_load_cex :
    ((-100:ℝ) ≤ 0)
    ∧ exampleTyre.lateral_force 1 (-100) = -1000
    ∧ exampleTyre.lateral_force 1 (-100) ≠ 0 := by
  refine ⟨by norm_num, ?_, ?_⟩ <;>
    norm_num [exampleTyre, GenericTyreModel.lateral_force, lat_func]

/-- Claim C9 as amended: for normal_load ≤ 0 only force_coupling (via
ellipse_coupling) returns 0; lateral_force and longitudinal_force keep their
linear formulas 10 * load * slip and 12 * load * slip, which are nonzero for
negative load and nonzero slip. -/
theorem tyre_forces_negative_load_amended (given_force slip_angle s normal_load : ℝ)
    (hL : normal_load ≤ 0) :
    exampleTyre.force_coupling given_force normal_load = 0
    ∧ exampleTyre.lateral_force slip_angle normal_load = 10 * normal_load * slip_angle
    ∧ exampleTyre.longitudinal_force s normal_load = 12 * normal_load * s := by
  refine ⟨?_, rfl, rfl⟩
  show ellipse_coupling given_force normal_load = 0
  unfold ellipse_coupling
  by_cases h : |given_force| ≤ normal_load
  · have hL0 : normal_load = 0 := le_antisymm hL (le_trans (abs_nonneg _) h)
    have hF0 : given_force = 0 := by
      have hle : |given_force| ≤ 0 := hL0 ▸ h
      exact abs_eq_zero.mp (le_antisymm hle (abs_nonneg _))
    subst hL0
    subst hF0
    simp
  · rw [if_neg h]

/-- Witness for the amended claim C9 at given_force 1, slips 1 and load -2. -/
theorem tyre_forces_negative_load_amended_witness :
    ((-2:ℝ) ≤ 0) ∧ exampleTyre.force_coupling 1 (-2) = 0 :=
  ⟨by norm_num, (tyre_forces_negative_load_amended 1 1 1 (-2) (by norm_num)).1⟩

/-- Claim C10: GenericAeroModel always forwards the air density to the
stored two-argument functions; called without rho it uses the default 1.25,
so downforce speed = f speed 1.25 and drag speed = g speed 1.25. -/
theorem aero_forwards_rho (f g : ℚ → ℚ → ℚ) (speed : ℚ) :
    (GenericAeroModel.mk f g).downforce_default speed = f speed 1.25
    ∧ (GenericAeroModel.mk f g).drag_default speed = g speed 1.25 :=
  ⟨rfl, rfl⟩
